import Mathlib

/-!
# Verification of the Stripe MCP server (`src/stripe/src/index.ts`)

This file gives a shallow embedding of the Stripe MCP server's core logic:

* the JSON validity test used to model `JSON.parse` on the `metadata`
  argument of the product/price tools (ECMA-404 grammar, as accepted by
  JavaScript's `JSON.parse`);
* JavaScript truthiness of the optional argument values that the handlers
  branch on (`if (metadata)`, `if (!name)`, `limit || 10`, ...);
* the five Stripe tool handlers (`stripe_products`, `stripe_prices`,
  `stripe_webhooks`, `stripe_portal_config`, `stripe_query`) as pure
  functions of an abstract Stripe adapter (the Stripe SDK is an external
  collaborator; each handler returns the response payload it would
  serialize, together with the list of adapter calls it performed);
* the HTTP request router of `main()` in `http` transport mode, including
  the `/mcp` streamable-session registry, as a step function on an
  explicit router state.

JavaScript numbers are modelled as `Int` (every numeric argument the
claims exercise is an integer); the decimal rendering of
`unit_amount / 100` in human-readable price messages is runtime number
formatting and is passed in as an abstract formatting function.
-/

/-! ## JSON validity (model of `JSON.parse` success/failure)

A recursive-descent recognizer for the ECMA-404 JSON grammar, written with
explicit fuel (the fuel bound `2 * length + 16` is sufficient because every
two recursive steps consume at least one character).  Float underflow of
extreme numeric literals is not modelled (it does not affect grammar
acceptance). -/

def lcub : Char := Char.ofNat 123

def rcub : Char := Char.ofNat 125

def jsonWs (c : Char) : Bool :=
  c = ' ' || c = Char.ofNat 9 || c = Char.ofNat 10 || c = Char.ofNat 13

def skipWs : List Char → List Char
  | [] => []
  | c :: cs => if jsonWs c then skipWs cs else c :: cs

def isHexDigit (c : Char) : Bool :=
  c.isDigit || ('a' ≤ c && c ≤ 'f') || ('A' ≤ c && c ≤ 'F')

/-- Recognize the tail of a JSON string literal (the opening quote has
already been consumed); returns the remaining characters on success. -/
def scanStringBody : Nat → List Char → Option (List Char)
  | 0, _ => none
  | _ + 1, [] => none
  | fuel + 1, c :: rest =>
    if c = '"' then some rest
    else if c = '\\' then
      match rest with
      | [] => none
      | e :: rest2 =>
        if e = '"' || e = '\\' || e = '/' || e = 'b' || e = 'f' || e = 'n' || e = 'r' || e = 't' then
          scanStringBody fuel rest2
        else if e = 'u' then
          match rest2 with
          | h1 :: h2 :: h3 :: h4 :: rest3 =>
            if isHexDigit h1 && isHexDigit h2 && isHexDigit h3 && isHexDigit h4 then
              scanStringBody fuel rest3
            else none
          | _ => none
        else none
    else if c.toNat < 32 then none
    else scanStringBody fuel rest

/-- Recognize the optional exponent part of a JSON number. -/
def scanExp : List Char → Option (List Char)
  | [] => some []
  | c :: rest =>
    if c = 'e' || c = 'E' then
      match (match rest with
             | s :: r => if s = '+' || s = '-' then r else s :: r
             | [] => []) with
      | d :: r2 => if d.isDigit then some (r2.dropWhile Char.isDigit) else none
      | [] => none
    else some (c :: rest)

/-- Recognize the optional fraction part of a JSON number, then the
exponent part. -/
def scanFrac : List Char → Option (List Char)
  | [] => some []
  | c :: rest =>
    if c = '.' then
      match rest with
      | d :: rest2 => if d.isDigit then scanExp (rest2.dropWhile Char.isDigit) else none
      | [] => none
    else scanExp (c :: rest)

/-- Recognize a JSON number starting at its first digit (a leading minus
sign has already been consumed by the caller). -/
def scanNumber : List Char → Option (List Char)
  | [] => none
  | c :: rest =>
    if c = '0' then scanFrac rest
    else if c.isDigit then scanFrac (rest.dropWhile Char.isDigit)
    else none

/-- Recognize a keyword tail such as `rue` after an initial `t`. -/
def expectLit : List Char → List Char → Option (List Char)
  | [], cs => some cs
  | _ :: _, [] => none
  | l :: ls, c :: cs => if c = l then expectLit ls cs else none

mutual

/-- Recognize one JSON value; returns the remaining characters. -/
def parseVal : Nat → List Char → Option (List Char)
  | 0, _ => none
  | fuel + 1, cs =>
    match skipWs cs with
    | [] => none
    | c :: rest =>
      if c = lcub then parseObjBody fuel rest
      else if c = '[' then parseArrBody fuel rest
      else if c = '"' then scanStringBody (rest.length + 1) rest
      else if c = 't' then expectLit "rue".data rest
      else if c = 'f' then expectLit "alse".data rest
      else if c = 'n' then expectLit "ull".data rest
      else if c = '-' then scanNumber rest
      else if c.isDigit then scanNumber (c :: rest)
      else none

/-- Recognize the inside of a JSON object (the opening brace has been
consumed). -/
def parseObjBody : Nat → List Char → Option (List Char)
  | 0, _ => none
  | fuel + 1, cs =>
    match skipWs cs with
    | [] => none
    | c :: rest =>
      if c = rcub then some rest
      else if c = '"' then
        match scanStringBody (rest.length + 1) rest with
        | none => none
        | some afterKey => parseObjPair fuel afterKey
      else none

/-- Recognize `: value` after an object key, then the object tail. -/
def parseObjPair : Nat → List Char → Option (List Char)
  | 0, _ => none
  | fuel + 1, cs =>
    match skipWs cs with
    | c :: rest =>
      if c = ':' then
        match parseVal fuel rest with
        | none => none
        | some afterVal => parseObjTail fuel afterVal
      else none
    | [] => none

/-- Recognize the continuation of a JSON object after a member: either a
closing brace or a comma and another member. -/
def parseObjTail : Nat → List Char → Option (List Char)
  | 0, _ => none
  | fuel + 1, cs =>
    match skipWs cs with
    | c :: rest =>
      if c = rcub then some rest
      else if c = ',' then
        match skipWs rest with
        | c2 :: rest2 =>
          if c2 = '"' then
            match scanStringBody (rest2.length + 1) rest2 with
            | none => none
            | some afterKey => parseObjPair fuel afterKey
          else none
        | [] => none
      else none
    | [] => none

/-- Recognize the inside of a JSON array (the opening bracket has been
consumed). -/
def parseArrBody : Nat → List Char → Option (List Char)
  | 0, _ => none
  | fuel + 1, cs =>
    match skipWs cs with
    | [] => none
    | c :: rest =>
      if c = ']' then some rest
      else
        match parseVal fuel (c :: rest) with
        | none => none
        | some afterVal => parseArrTail fuel afterVal

/-- Recognize the continuation of a JSON array after an element. -/
def parseArrTail : Nat → List Char → Option (List Char)
  | 0, _ => none
  | fuel + 1, cs =>
    match skipWs cs with
    | c :: rest =>
      if c = ']' then some rest
      else if c = ',' then
        match parseVal fuel rest with
        | none => none
        | some afterVal => parseArrTail fuel afterVal
      else none
    | [] => none

end

/-- A string is valid JSON exactly when `JSON.parse` would accept it:
one JSON value surrounded only by JSON whitespace. -/
def isValidJson (s : String) : Bool :=
  match parseVal (2 * s.length + 16) s.data with
  | some rest => (skipWs rest).isEmpty
  | none => false

/-- True iff the digits of the integer and fraction parts of a JSON number
are all zero (so the parsed JavaScript number is `0` or `-0`). -/
def numberAllZero (cs : List Char) : Bool :=
  let ip := cs.takeWhile Char.isDigit
  let rest := cs.dropWhile Char.isDigit
  let fp := match rest with
            | c :: r => if c = '.' then r.takeWhile Char.isDigit else []
            | [] => []
  (ip ++ fp).all (fun c => c = '0')

/-- JavaScript truthiness of the value `JSON.parse s` returns, for a valid
JSON string `s`: `null`, `false`, the empty string and the number zero are
falsy; every object, array, nonempty string, `true` and nonzero number is
truthy. -/
def jsonTruthy (s : String) : Bool :=
  match skipWs s.data with
  | [] => false
  | c :: rest =>
    if c = 'n' then false
    else if c = 'f' then false
    else if c = '"' then
      match rest with
      | c2 :: _ => c2 != '"'
      | [] => false
    else if c = '-' then !numberAllZero rest
    else if c.isDigit then !numberAllZero (c :: rest)
    else true

/-! ## JavaScript truthiness of optional arguments -/

/-- Truthiness of an optional string argument: absent (`undefined`) and the
empty string are falsy. -/
def strTruthy : Option String → Bool
  | none => false
  | some s => s != ""

/-- Truthiness of an optional number argument: absent (`undefined`) and `0`
are falsy. -/
def numTruthy : Option Int → Bool
  | none => false
  | some n => n != 0

/-- Truthiness of the parse result bound to `parsedMetadata`: it is set
only when `metadata` was supplied and truthy, and the parsed value itself
must be truthy to be copied into the request params. -/
def metaParamTruthy : Option String → Bool
  | none => false
  | some raw => jsonTruthy raw

/-! ## Stripe tool data model

Stripe API objects are modelled with the fields the handlers actually
read; the adapter (the Stripe SDK) is an external collaborator represented
as a record of functions returning `Except String` (a thrown Stripe error
is its message string, which `handleError` copies into the envelope). -/

inductive ProductAction
  | create | list | retrieve | update | archive
deriving DecidableEq, Repr

structure Product where
  id : String := ""
  name : String := ""
  active : Bool := true
deriving DecidableEq, Repr

structure ProductCreateParams where
  name : String
  description : Option String := none
  images : Option (List String) := none
  metadata : Option String := none
deriving DecidableEq, Repr

structure ProductUpdateParams where
  name : Option String := none
  description : Option String := none
  images : Option (List String) := none
  metadata : Option String := none
  active : Option Bool := none
deriving DecidableEq, Repr

inductive PriceAction
  | create | list | retrieve | update | archive
deriving DecidableEq, Repr

structure Recurring where
  interval : String
  interval_count : Int := 1
deriving DecidableEq, Repr

structure Price where
  id : String := ""
  unit_amount : Option Int := none
  currency : String := "usd"
  recurring : Option Recurring := none
  active : Bool := true
deriving DecidableEq, Repr

structure PriceCreateParams where
  product : String
  unit_amount : Int
  currency : String
  recurring : Option Recurring := none
  metadata : Option String := none
deriving DecidableEq, Repr

structure PriceListParams where
  limit : Int
  product : Option String := none
deriving DecidableEq, Repr

structure PriceUpdateParams where
  metadata : Option String := none
  active : Option Bool := none
deriving DecidableEq, Repr

inductive WebhookAction
  | create | list | retrieve | update | delete
deriving DecidableEq, Repr

structure Webhook where
  id : String := ""
  url : String := ""
deriving DecidableEq, Repr

structure WebhookCreateParams where
  url : String
  enabled_events : List String
  description : Option String := none
deriving DecidableEq, Repr

structure WebhookUpdateParams where
  url : Option String := none
  enabled_events : Option (List String) := none
  description : Option String := none
  disabled : Option Bool := none
deriving DecidableEq, Repr

inductive PortalAction
  | create | list | retrieve | update
deriving DecidableEq, Repr

structure PortalConfig where
  id : String := ""
deriving DecidableEq, Repr

structure PortalFeatures where
  invoice_history : Bool
  payment_method_update : Bool
  subscription_cancel : Bool
  subscription_pause : Bool
  subscription_update : Bool
  customer_update : Option (List String) := none
deriving DecidableEq, Repr

structure BusinessProfile where
  headline : Option String := none
  privacy_policy_url : Option String := none
  terms_of_service_url : Option String := none
deriving DecidableEq, Repr

structure PortalCreateParams where
  features : PortalFeatures
  business_profile : Option BusinessProfile := none
  default_return_url : Option String := none
deriving DecidableEq, Repr

structure PortalUpdateParams where
  features : PortalFeatures
  business_profile : Option BusinessProfile := none
  default_return_url : Option String := none
deriving DecidableEq, Repr

inductive QueryResource
  | events | charges | payment_intents | customers
  | subscriptions | invoices | products | prices
deriving DecidableEq, Repr

/-- The wire name of a query resource (the value of the `resource`
argument). -/
def resourceName : QueryResource → String
  | .events => "events"
  | .charges => "charges"
  | .payment_intents => "payment_intents"
  | .customers => "customers"
  | .subscriptions => "subscriptions"
  | .invoices => "invoices"
  | .products => "products"
  | .prices => "prices"

structure CreatedFilter where
  gte : Option Int := none
  lte : Option Int := none
  gt : Option Int := none
  lt : Option Int := none
deriving DecidableEq, Repr

structure AmountFilter where
  gte : Option Int := none
  lte : Option Int := none
deriving DecidableEq, Repr

structure QueryFilters where
  created : Option CreatedFilter := none
  status : Option String := none
  type : Option String := none
  customer : Option String := none
  subscription : Option String := none
  invoice : Option String := none
  payment_intent : Option String := none
  amount : Option AmountFilter := none
deriving DecidableEq, Repr

structure QueryParams where
  limit : Int
  created : Option CreatedFilter := none
  status : Option String := none
  type : Option String := none
  customer : Option String := none
  subscription : Option String := none
  invoice : Option String := none
  payment_intent : Option String := none
  amount : Option AmountFilter := none
  expand : Option (List String) := none
deriving DecidableEq, Repr

structure QueryResult where
  data : List String := []
  has_more : Bool := false
deriving DecidableEq, Repr

/-- One Stripe SDK call, with the parameters the handler passed to it.
A tool response is paired with the list of such calls it performed, which
is what a stub adapter counting invocations would observe. -/
inductive StripeCall
  | productsCreate (p : ProductCreateParams)
  | productsList (limit : Int)
  | productsRetrieve (id : String)
  | productsUpdate (id : String) (p : ProductUpdateParams)
  | pricesCreate (p : PriceCreateParams)
  | pricesList (p : PriceListParams)
  | pricesRetrieve (id : String)
  | pricesUpdate (id : String) (p : PriceUpdateParams)
  | webhooksCreate (p : WebhookCreateParams)
  | webhooksList (limit : Int)
  | webhooksRetrieve (id : String)
  | webhooksUpdate (id : String) (p : WebhookUpdateParams)
  | webhooksDel (id : String)
  | portalCreate (p : PortalCreateParams)
  | portalList (limit : Int)
  | portalRetrieve (id : String)
  | portalUpdate (id : String) (p : PortalUpdateParams)
  | queryList (resource : String) (p : QueryParams)
deriving DecidableEq, Repr

/-- The JSON payload a tool handler serializes into its text response:
either the `{success:false, error}` envelope or a `{success:true, ...}`
envelope whose resource key depends on the tool and action. -/
inductive ToolPayload
  | failure (error : String)
  | product (product : Product) (message : String)
  | products (products : List Product) (message : String)
  | price (price : Price) (message : String)
  | prices (prices : List Price) (message : String)
  | webhook (webhook : Webhook) (message : String)
  | webhooks (webhooks : List Webhook) (message : String)
  | portalConfig (configuration : PortalConfig) (message : String)
  | portalConfigs (configurations : List PortalConfig) (message : String)
  | queryOk (resource : String) (count : Nat) (has_more : Bool)
      (data : List String) (message : String)
deriving DecidableEq, Repr

structure ProductsAdapter where
  create : ProductCreateParams → Except String Product
  list : Int → Except String (List Product)
  retrieve : String → Except String Product
  update : String → ProductUpdateParams → Except String Product

structure PricesAdapter where
  create : PriceCreateParams → Except String Price
  list : PriceListParams → Except String (List Price)
  retrieve : String → Except String Price
  update : String → PriceUpdateParams → Except String Price

structure WebhooksAdapter where
  create : WebhookCreateParams → Except String Webhook
  list : Int → Except String (List Webhook)
  retrieve : String → Except String Webhook
  update : String → WebhookUpdateParams → Except String Webhook
  del : String → Except String Webhook

structure PortalAdapter where
  create : PortalCreateParams → Except String PortalConfig
  list : Int → Except String (List PortalConfig)
  retrieve : String → Except String PortalConfig
  update : String → PortalUpdateParams → Except String PortalConfig

structure QueryAdapter where
  events : QueryParams → Except String QueryResult
  charges : QueryParams → Except String QueryResult
  payment_intents : QueryParams → Except String QueryResult
  customers : QueryParams → Except String QueryResult
  subscriptions : QueryParams → Except String QueryResult
  invoices : QueryParams → Except String QueryResult
  products : QueryParams → Except String QueryResult
  prices : QueryParams → Except String QueryResult

/-! ## Tool handlers

Each handler mirrors the corresponding `server.tool(...)` callback in
`src/stripe/src/index.ts`, returning the payload it would serialize and the
list of Stripe SDK calls it performed (in order).  The `metadata` gate of
the product and price tools mirrors
`if (metadata) { try { JSON.parse(metadata) } catch { return error } }`:
a falsy (absent or empty) metadata string skips parsing entirely. -/

structure ProductsArgs where
  action : ProductAction
  product_id : Option String := none
  name : Option String := none
  description : Option String := none
  images : Option (List String) := none
  metadata : Option String := none
  active : Option Bool := none
deriving DecidableEq, Repr

/-- The value copied into request params by
`if (parsedMetadata) params.metadata = parsedMetadata` (here `pm` is the
raw metadata string when it was supplied, truthy and parsed
successfully). -/
def metadataParam (pm : Option String) : Option String :=
  match pm with
  | some raw => if jsonTruthy raw then some raw else none
  | none => none

/-- The `switch (action)` body of the `stripe_products` handler, after the
metadata gate; `pm` is the successfully parsed metadata, if any. -/
def productsSwitch (ad : ProductsAdapter) (a : ProductsArgs) (pm : Option String) :
    ToolPayload × List StripeCall :=
  match a.action with
  | .create =>
    if !strTruthy a.name then
      (.failure "Product name is required for create action", [])
    else
      let ps : ProductCreateParams :=
        { name := a.name.getD ""
          description := if strTruthy a.description then a.description else none
          images := a.images
          metadata := metadataParam pm }
      match ad.create ps with
      | .ok p => (.product p ("Successfully created product: " ++ p.name), [.productsCreate ps])
      | .error e => (.failure e, [.productsCreate ps])
  | .list =>
    match ad.list 100 with
    | .ok ps =>
      (.products ps ("Found " ++ toString ps.length ++ " product(s)"), [.productsList 100])
    | .error e => (.failure e, [.productsList 100])
  | .retrieve =>
    if !strTruthy a.product_id then
      (.failure "Product ID is required for retrieve action", [])
    else
      let pid := a.product_id.getD ""
      match ad.retrieve pid with
      | .ok p => (.product p ("Retrieved product: " ++ p.name), [.productsRetrieve pid])
      | .error e => (.failure e, [.productsRetrieve pid])
  | .update =>
    if !strTruthy a.product_id then
      (.failure "Product ID is required for update action", [])
    else
      let pid := a.product_id.getD ""
      let ps : ProductUpdateParams :=
        { name := if strTruthy a.name then a.name else none
          description := a.description
          images := a.images
          metadata := metadataParam pm
          active := a.active }
      match ad.update pid ps with
      | .ok p => (.product p ("Successfully updated product: " ++ p.name), [.productsUpdate pid ps])
      | .error e => (.failure e, [.productsUpdate pid ps])
  | .archive =>
    if !strTruthy a.product_id then
      (.failure "Product ID is required for archive action", [])
    else
      let pid := a.product_id.getD ""
      let ps : ProductUpdateParams := { active := some false }
      match ad.update pid ps with
      | .ok p => (.product p ("Successfully archived product: " ++ p.name), [.productsUpdate pid ps])
      | .error e => (.failure e, [.productsUpdate pid ps])

/-- The `stripe_products` tool handler. -/
def stripeProducts (ad : ProductsAdapter) (a : ProductsArgs) :
    ToolPayload × List StripeCall :=
  match a.metadata with
  | some s =>
    if s == "" then productsSwitch ad a none
    else if isValidJson s then productsSwitch ad a (some s)
    else (.failure "Invalid metadata JSON format", [])
  | none => productsSwitch ad a none

structure PricesArgs where
  action : PriceAction
  price_id : Option String := none
  product_id : Option String := none
  unit_amount : Option Int := none
  currency : Option String := none
  recurring_interval : Option String := none
  recurring_interval_count : Option Int := none
  metadata : Option String := none
  active : Option Bool := none
deriving DecidableEq, Repr

/-- The human-readable amount part of a price message:
`price.unit_amount ? (price.unit_amount / 100) : 'custom'`, where `fmt`
renders the JavaScript number `unit_amount / 100` as a string. -/
def amountText (fmt : Int → String) (ua : Option Int) : String :=
  match ua with
  | some n => if n != 0 then fmt n else "custom"
  | none => "custom"

/-- The recurring suffix of the created-price message. -/
def recurringSuffix (r : Option Recurring) : String :=
  match r with
  | some rec' => " per " ++ rec'.interval
  | none => ""

/-- The `switch (action)` body of the `stripe_prices` handler, after the
metadata gate. -/
def pricesSwitch (fmt : Int → String) (ad : PricesAdapter) (a : PricesArgs)
    (pm : Option String) : ToolPayload × List StripeCall :=
  match a.action with
  | .create =>
    if !strTruthy a.product_id || !numTruthy a.unit_amount then
      (.failure "Product ID and unit_amount are required for create action", [])
    else
      let ps : PriceCreateParams :=
        { product := a.product_id.getD ""
          unit_amount := a.unit_amount.getD 0
          currency := a.currency.getD "usd"
          recurring :=
            if strTruthy a.recurring_interval then
              some { interval := a.recurring_interval.getD ""
                     interval_count := a.recurring_interval_count.getD 1 }
            else none
          metadata := metadataParam pm }
      match ad.create ps with
      | .ok p =>
        (.price p ("Successfully created price: " ++ amountText fmt p.unit_amount ++ " "
            ++ p.currency.toUpper ++ recurringSuffix p.recurring), [.pricesCreate ps])
      | .error e => (.failure e, [.pricesCreate ps])
  | .list =>
    let ps : PriceListParams :=
      { limit := 100
        product := if strTruthy a.product_id then a.product_id else none }
    match ad.list ps with
    | .ok prs =>
      (.prices prs ("Found " ++ toString prs.length ++ " price(s)"), [.pricesList ps])
    | .error e => (.failure e, [.pricesList ps])
  | .retrieve =>
    if !strTruthy a.price_id then
      (.failure "Price ID is required for retrieve action", [])
    else
      let pid := a.price_id.getD ""
      match ad.retrieve pid with
      | .ok p =>
        (.price p ("Retrieved price: " ++ amountText fmt p.unit_amount ++ " "
            ++ p.currency.toUpper), [.pricesRetrieve pid])
      | .error e => (.failure e, [.pricesRetrieve pid])
  | .update =>
    if !strTruthy a.price_id then
      (.failure "Price ID is required for update action", [])
    else
      let pid := a.price_id.getD ""
      let ps : PriceUpdateParams := { metadata := metadataParam pm, active := a.active }
      match ad.update pid ps with
      | .ok p =>
        (.price p ("Successfully updated price: " ++ amountText fmt p.unit_amount ++ " "
            ++ p.currency.toUpper), [.pricesUpdate pid ps])
      | .error e => (.failure e, [.pricesUpdate pid ps])
  | .archive =>
    if !strTruthy a.price_id then
      (.failure "Price ID is required for archive action", [])
    else
      let pid := a.price_id.getD ""
      let ps : PriceUpdateParams := { active := some false }
      match ad.update pid ps with
      | .ok p =>
        (.price p ("Successfully archived price: " ++ amountText fmt p.unit_amount ++ " "
            ++ p.currency.toUpper), [.pricesUpdate pid ps])
      | .error e => (.failure e, [.pricesUpdate pid ps])

/-- The `stripe_prices` tool handler. -/
def stripePrices (fmt : Int → String) (ad : PricesAdapter) (a : PricesArgs) :
    ToolPayload × List StripeCall :=
  match a.metadata with
  | some s =>
    if s == "" then pricesSwitch fmt ad a none
    else if isValidJson s then pricesSwitch fmt ad a (some s)
    else (.failure "Invalid metadata JSON format", [])
  | none => pricesSwitch fmt ad a none

/-- The value of `s.startsWith(pre)` in JavaScript, as a character-list
prefix test (extensionally equal to `String.startsWith`). -/
def strStartsWith (s pre : String) : Bool :=
  pre.data.isPrefixOf s.data

structure WebhooksArgs where
  action : WebhookAction
  webhook_id : Option String := none
  url : Option String := none
  enabled_events : Option (List String) := none
  description : Option String := none
  enabled : Option Bool := none
deriving DecidableEq, Repr

/-- The `stripe_webhooks` tool handler. -/
def stripeWebhooks (ad : WebhooksAdapter) (a : WebhooksArgs) :
    ToolPayload × List StripeCall :=
  match a.action with
  | .create =>
    if !strTruthy a.url || !a.enabled_events.isSome then
      (.failure "URL and enabled_events are required for create action", [])
    else if !strStartsWith (a.url.getD "") "https://" then
      (.failure "Webhook URL must start with https://", [])
    else
      let ps : WebhookCreateParams :=
        { url := a.url.getD ""
          enabled_events := a.enabled_events.getD []
          description := if strTruthy a.description then a.description else none }
      match ad.create ps with
      | .ok w =>
        (.webhook w ("Successfully created webhook endpoint: " ++ w.url), [.webhooksCreate ps])
      | .error e => (.failure e, [.webhooksCreate ps])
  | .list =>
    match ad.list 100 with
    | .ok ws =>
      (.webhooks ws ("Found " ++ toString ws.length ++ " webhook endpoint(s)"), [.webhooksList 100])
    | .error e => (.failure e, [.webhooksList 100])
  | .retrieve =>
    if !strTruthy a.webhook_id then
      (.failure "Webhook ID is required for retrieve action", [])
    else
      let wid := a.webhook_id.getD ""
      match ad.retrieve wid with
      | .ok w => (.webhook w ("Retrieved webhook endpoint: " ++ w.url), [.webhooksRetrieve wid])
      | .error e => (.failure e, [.webhooksRetrieve wid])
  | .update =>
    if !strTruthy a.webhook_id then
      (.failure "Webhook ID is required for update action", [])
    else
      let wid := a.webhook_id.getD ""
      let ps : WebhookUpdateParams :=
        { url := if strTruthy a.url then a.url else none
          enabled_events := a.enabled_events
          description := a.description
          disabled := a.enabled.map (fun b => !b) }
      match ad.update wid ps with
      | .ok w =>
        (.webhook w ("Successfully updated webhook endpoint: " ++ w.url), [.webhooksUpdate wid ps])
      | .error e => (.failure e, [.webhooksUpdate wid ps])
  | .delete =>
    if !strTruthy a.webhook_id then
      (.failure "Webhook ID is required for delete action", [])
    else
      let wid := a.webhook_id.getD ""
      match ad.del wid with
      | .ok w => (.webhook w "Successfully deleted webhook endpoint", [.webhooksDel wid])
      | .error e => (.failure e, [.webhooksDel wid])

structure PortalArgs where
  action : PortalAction
  configuration_id : Option String := none
  business_profile_headline : Option String := none
  business_profile_privacy_policy_url : Option String := none
  business_profile_terms_of_service_url : Option String := none
  default_return_url : Option String := none
  features_customer_update_allowed_updates : Option (List String) := none
  features_invoice_history_enabled : Option Bool := none
  features_payment_method_update_enabled : Option Bool := none
  features_subscription_cancel_enabled : Option Bool := none
  features_subscription_pause_enabled : Option Bool := none
  features_subscription_update_enabled : Option Bool := none
deriving DecidableEq, Repr

/-- The `features` object the portal handler always builds (destructuring
defaults applied for absent arguments). -/
def portalFeatures (a : PortalArgs) : PortalFeatures :=
  { invoice_history := a.features_invoice_history_enabled.getD true
    payment_method_update := a.features_payment_method_update_enabled.getD true
    subscription_cancel := a.features_subscription_cancel_enabled.getD true
    subscription_pause := a.features_subscription_pause_enabled.getD false
    subscription_update := a.features_subscription_update_enabled.getD true
    customer_update := a.features_customer_update_allowed_updates }

/-- The optional `business_profile` object, built only when at least one
of its three fields is truthy. -/
def portalBusinessProfile (a : PortalArgs) : Option BusinessProfile :=
  if strTruthy a.business_profile_headline
      || strTruthy a.business_profile_privacy_policy_url
      || strTruthy a.business_profile_terms_of_service_url then
    some { headline := if strTruthy a.business_profile_headline then
                         a.business_profile_headline else none
           privacy_policy_url := if strTruthy a.business_profile_privacy_policy_url then
                                   a.business_profile_privacy_policy_url else none
           terms_of_service_url := if strTruthy a.business_profile_terms_of_service_url then
                                     a.business_profile_terms_of_service_url else none }
  else none

/-- The `stripe_portal_config` tool handler. -/
def stripePortalConfig (ad : PortalAdapter) (a : PortalArgs) :
    ToolPayload × List StripeCall :=
  match a.action with
  | .create =>
    let ps : PortalCreateParams :=
      { features := portalFeatures a
        business_profile := portalBusinessProfile a
        default_return_url := if strTruthy a.default_return_url then
                                a.default_return_url else none }
    match ad.create ps with
    | .ok c =>
      (.portalConfig c ("Successfully created portal configuration: " ++ c.id), [.portalCreate ps])
    | .error e => (.failure e, [.portalCreate ps])
  | .list =>
    match ad.list 100 with
    | .ok cs =>
      (.portalConfigs cs ("Found " ++ toString cs.length ++ " portal configuration(s)"),
       [.portalList 100])
    | .error e => (.failure e, [.portalList 100])
  | .retrieve =>
    if !strTruthy a.configuration_id then
      (.failure "Configuration ID is required for retrieve action", [])
    else
      let cid := a.configuration_id.getD ""
      match ad.retrieve cid with
      | .ok c => (.portalConfig c ("Retrieved portal configuration: " ++ c.id), [.portalRetrieve cid])
      | .error e => (.failure e, [.portalRetrieve cid])
  | .update =>
    if !strTruthy a.configuration_id then
      (.failure "Configuration ID is required for update action", [])
    else
      let cid := a.configuration_id.getD ""
      let ps : PortalUpdateParams :=
        { features := portalFeatures a
          business_profile := portalBusinessProfile a
          default_return_url := if strTruthy a.default_return_url then
                                  a.default_return_url else none }
      match ad.update cid ps with
      | .ok c =>
        (.portalConfig c ("Successfully updated portal configuration: " ++ c.id),
         [.portalUpdate cid ps])
      | .error e => (.failure e, [.portalUpdate cid ps])

structure QueryArgs where
  resource : QueryResource
  filters : Option QueryFilters := none
  limit : Option Int := none
  expand : Option (List String) := none
deriving DecidableEq, Repr

/-- The query parameters the `stripe_query` handler builds:
`validLimit = Math.min(Math.max(limit || 10, 1), 100)` (with the
destructuring default `limit = 10` for an absent argument) followed by the
truthiness-gated copying of each filter. -/
def queryParams (a : QueryArgs) : QueryParams :=
  let fs := a.filters.getD {}
  let l := a.limit.getD 10
  let validLimit : Int := min (max (if l == 0 then 10 else l) 1) 100
  { limit := validLimit
    created := fs.created
    status := if strTruthy fs.status then fs.status else none
    type := if strTruthy fs.type then fs.type else none
    customer := if strTruthy fs.customer then fs.customer else none
    subscription := if strTruthy fs.subscription then fs.subscription else none
    invoice := if strTruthy fs.invoice then fs.invoice else none
    payment_intent := if strTruthy fs.payment_intent then fs.payment_intent else none
    amount := fs.amount
    expand := a.expand }

/-- Dispatch of `stripe_query` to the per-resource SDK list call. -/
def queryDispatch (ad : QueryAdapter) (r : QueryResource) (p : QueryParams) :
    Except String QueryResult :=
  match r with
  | .events => ad.events p
  | .charges => ad.charges p
  | .payment_intents => ad.payment_intents p
  | .customers => ad.customers p
  | .subscriptions => ad.subscriptions p
  | .invoices => ad.invoices p
  | .products => ad.products p
  | .prices => ad.prices p

/-- The `stripe_query` tool handler. -/
def stripeQuery (ad : QueryAdapter) (a : QueryArgs) : ToolPayload × List StripeCall :=
  let p := queryParams a
  let rn := resourceName a.resource
  match queryDispatch ad a.resource p with
  | .ok res =>
    (.queryOk rn res.data.length res.has_more res.data
      ("Found " ++ toString res.data.length ++ " " ++ rn ++ " record(s)"
        ++ (if res.has_more then " (more available)" else "")),
     [.queryList rn p])
  | .error e => (.failure e, [.queryList rn p])

/-! ## HTTP request router (`main()` in `http` transport mode)

The streamable-session registry `streamableTransports` is a JavaScript
object keyed by session id; transport handles are identified by a counter
(`nextTid`) standing for object identity.  A request body is either
`malformed` (the `JSON.parse(body)` of the raw request body throws) or a
parsed JSON-RPC body that is or is not an initialize request.  On a new
initialize request the MCP SDK allocates the session id via `randomUUID`
(modelled as the `genSid` component of the event) and fires
`onsessioninitialized`, which registers the transport; `transport.onclose`
deletes the registry entry for the transport's session id. -/

structure RouterState where
  streamable : String → Option Nat
  sse : String → Option Nat
  nextTid : Nat

inductive Body
  | malformed
  | json (isInit : Bool)
deriving DecidableEq, Repr

inductive McpEvent
  | post (sessionId : Option String) (body : Body) (genSid : String)
  | get (sessionId : Option String)
  | delete (sessionId : Option String)
  | closed (sessionId : String)
deriving DecidableEq, Repr

inductive McpOutcome
  | handledBy (tid : Nat)
  | createdSession (sid : String) (tid : Nat)
  | noSessionError
  | parseError
  | invalidSession
  | cleanup
deriving DecidableEq, Repr

/-- The value of `sessionId && streamableTransports[sessionId]`: the
registered transport, provided the header value is truthy and the lookup
succeeds. -/
def activeFor (st : RouterState) (sid? : Option String) : Option Nat :=
  match sid? with
  | some sid => if sid = "" then none else st.streamable sid
  | none => none

/-- Register a freshly created transport under the session id the SDK
generated (the `onsessioninitialized` callback). -/
def registerSession (st : RouterState) (g : String) : RouterState :=
  { st with
      streamable := fun s => if s = g then some st.nextTid else st.streamable s
      nextTid := st.nextTid + 1 }

/-- One step of the `/mcp` endpoint handler (plus the `onclose` cleanup
callback as the `closed` event), mirroring the POST/GET/DELETE branches of
the request handler in `main()`. -/
def mcpStep (st : RouterState) (e : McpEvent) : RouterState × McpOutcome :=
  match e with
  | .post sid? body g =>
    match activeFor st sid? with
    | some t =>
      match body with
      | .malformed => (st, .parseError)
      | .json _ => (st, .handledBy t)
    | none =>
      match body with
      | .malformed => (st, .parseError)
      | .json isInit =>
        if !strTruthy sid? && isInit then
          (registerSession st g, .createdSession g st.nextTid)
        else
          match activeFor st sid? with
          | some t => (st, .handledBy t)
          | none => (st, .noSessionError)
  | .get sid? =>
    match activeFor st sid? with
    | some t => (st, .handledBy t)
    | none => (st, .invalidSession)
  | .delete sid? =>
    match activeFor st sid? with
    | some t => (st, .handledBy t)
    | none => (st, .invalidSession)
  | .closed sid =>
    ({ st with streamable := fun s => if s = sid then none else st.streamable s }, .cleanup)

inductive HttpResponse
  | ok200
  | mcp (o : McpOutcome)
  | sseStream (sid : String)
  | sseMessageHandled (sid : String)
  | sseBadJson
  | sseNoTransport
  | health
  | index
  | notFound
deriving DecidableEq, Repr

/-- The whole `createServer` request callback: CORS preflight, the `/mcp`
endpoint, the legacy `/sse` and `/messages` endpoints, `/health`, `/` and
the not-found fallback.  The second component is `none` exactly when the
handler falls through every branch without writing a response. -/
def handleHttpRequest (st : RouterState) (method path : String)
    (headerSid : Option String) (body : Body) (gen : String)
    (querySid : Option String) : RouterState × Option HttpResponse :=
  if method = "OPTIONS" then (st, some .ok200)
  else if path = "/mcp" then
    if method = "POST" then
      let r := mcpStep st (.post headerSid body gen)
      (r.1, some (.mcp r.2))
    else if method = "GET" then
      let r := mcpStep st (.get headerSid)
      (r.1, some (.mcp r.2))
    else if method = "DELETE" then
      let r := mcpStep st (.delete headerSid)
      (r.1, some (.mcp r.2))
    else (st, none)
  else if path = "/sse" ∧ method = "GET" then
    ({ st with
        sse := fun s => if s = gen then some st.nextTid else st.sse s
        nextTid := st.nextTid + 1 },
     some (.sseStream gen))
  else if path = "/messages" ∧ method = "POST" then
    match querySid with
    | some sid =>
      match st.sse sid with
      | some _ =>
        match body with
        | .malformed => (st, some .sseBadJson)
        | .json _ => (st, some (.sseMessageHandled sid))
      | none => (st, some .sseNoTransport)
    | none => (st, some .sseNoTransport)
  else if path = "/health" then (st, some .health)
  else if path = "/" then (st, some .index)
  else (st, some .notFound)

/-- Freshness of the session id that would be allocated on a new
initialize request: `randomUUID` never collides with an already registered
id (and events that cannot create a session are unconditionally fresh). -/
def eventFresh (st : RouterState) (e : McpEvent) : Bool :=
  match e with
  | .post _ (.json true) g => st.streamable g == none
  | _ => true

/-! ## Claims -/

/-- C1: Session lifecycle of the modern `/mcp` endpoint.  A POST carrying
an initialize body and no session header creates a transport and registers
it under the SDK-generated id; a POST or DELETE carrying a registered id is
forwarded to that transport (leaving the registry unchanged); the
`onclose` callback deletes the registry entry, after which GET and POST
with the same id are rejected; and a registered id keeps mapping to the
same (unique) transport across every step other than its own closure,
given that generated ids are fresh. -/
theorem mcp_session_lifecycle (st : RouterState) (sid g : String) (t : Nat)
    (hsid : sid ≠ "") :
    ((mcpStep st (.post none (.json true) g)).2 = .createdSession g st.nextTid
      ∧ (mcpStep st (.post none (.json true) g)).1.streamable g = some st.nextTid)
    ∧ (st.streamable sid = some t →
        ∀ b : Bool, mcpStep st (.post (some sid) (.json b) g) = (st, .handledBy t))
    ∧ (st.streamable sid = some t →
        mcpStep st (.delete (some sid)) = (st, .handledBy t))
    ∧ ((mcpStep st (.closed sid)).1.streamable sid = none
      ∧ (mcpStep st (.closed sid)).2 = .cleanup)
    ∧ (st.streamable sid = none →
        mcpStep st (.get (some sid)) = (st, .invalidSession)
        ∧ (∀ b : Bool, mcpStep st (.post (some sid) (.json b) g) = (st, .noSessionError))
        ∧ mcpStep st (.post (some sid) .malformed g) = (st, .parseError))
    ∧ (st.streamable sid = some t →
        ∀ e : McpEvent, e ≠ .closed sid → eventFresh st e = true →
          (mcpStep st e).1.streamable sid = some t) := by
  refine ⟨⟨rfl, ?_⟩, ?_, ?_, ⟨?_, rfl⟩, ?_, ?_⟩
  · simp [mcpStep, activeFor, strTruthy, registerSession]
  · intro hreg b
    simp [mcpStep, activeFor, hsid, hreg]
  · intro hreg
    simp [mcpStep, activeFor, hsid, hreg]
  · simp [mcpStep]
  · intro hnone
    refine ⟨?_, ?_, ?_⟩
    · simp [mcpStep, activeFor, hsid, hnone]
    · intro b
      simp [mcpStep, activeFor, strTruthy, hsid, hnone]
    · simp [mcpStep, activeFor, hsid, hnone]
  · intro hreg e hne hfresh
    cases e with
    | post sid? body g' =>
      cases body with
      | malformed =>
        simp only [mcpStep]
        cases hact : activeFor st sid? <;> simp [hreg]
      | json isInit =>
        simp only [mcpStep]
        cases hact : activeFor st sid? with
        | some t' => simp [hreg]
        | none =>
          simp only
          by_cases hcond : (!strTruthy sid? && isInit) = true
          · have hInit : isInit = true := by
              have h := hcond
              simp only [Bool.and_eq_true] at h
              exact h.2
            subst hInit
            have hg : st.streamable g' = none := by
              simpa [eventFresh] using hfresh
            have hne' : sid ≠ g' := by
              intro h
              rw [h, hg] at hreg
              exact Option.noConfusion hreg
            simp [hcond, registerSession, hne', hreg]
          · simp only [Bool.not_eq_true] at hcond
            simp only [hcond]
            cases activeFor st sid? <;> simp [hreg]
    | get sid? =>
      simp only [mcpStep]
      cases activeFor st sid? <;> simp [hreg]
    | delete sid? =>
      simp only [mcpStep]
      cases activeFor st sid? <;> simp [hreg]
    | closed sid' =>
      have hne' : sid ≠ sid' := by
        intro h
        exact hne (by rw [h])
      simp [mcpStep, hne', hreg]

def lifecycleDemoState : RouterState :=
  ⟨fun s => if s = "aaa" then some 0 else none, fun _ => none, 1⟩

theorem mcp_session_lifecycle_witness :
    ("aaa" : String) ≠ ""
    ∧ (mcpStep lifecycleDemoState (.post none (.json true) "bbb")).2
        = .createdSession "bbb" 1
    ∧ mcpStep lifecycleDemoState (.post (some "aaa") (.json false) "x")
        = (lifecycleDemoState, .handledBy 0)
    ∧ mcpStep lifecycleDemoState (.delete (some "aaa"))
        = (lifecycleDemoState, .handledBy 0)
    ∧ (mcpStep lifecycleDemoState (.closed "aaa")).1.streamable "aaa" = none
    ∧ mcpStep lifecycleDemoState (.get (some "ccc")) = (lifecycleDemoState, .invalidSession)
    ∧ mcpStep lifecycleDemoState (.post (some "ccc") (.json false) "x")
        = (lifecycleDemoState, .noSessionError)
    ∧ (mcpStep lifecycleDemoState (.post none (.json true) "bbb")).1.streamable "aaa"
        = some 0 := by
  have hA := mcp_session_lifecycle lifecycleDemoState "aaa" "bbb" 0 (by decide)
  have hC := mcp_session_lifecycle lifecycleDemoState "ccc" "x" 0 (by decide)
  have hreg : lifecycleDemoState.streamable "aaa" = some 0 := by decide
  have hnone : lifecycleDemoState.streamable "ccc" = none := by decide
  exact ⟨by decide, hA.1.1, hA.2.1 hreg false, hA.2.2.1 hreg, hA.2.2.2.1.1,
    (hC.2.2.2.2.1 hnone).1,
    (hC.2.2.2.2.1 hnone).2.1 false,
    hA.2.2.2.2.2 hreg (.post none (.json true) "bbb") (by decide) (by decide)⟩

/-- C2 (amended): a POST to `/mcp` whose session header carries an
identifier that is not in the streamable session registry, and whose body
parses as JSON, is answered with the JSON-RPC `-32000`
"Bad Request: No valid session ID provided" error whatever the parsed
body's content, and the registry is left unchanged (no session is
created). -/
theorem unknown_session_post_rejected (st : RouterState) (sid g : String) (b : Bool)
    (hsid : sid ≠ "") (hunk : st.streamable sid = none) :
    mcpStep st (.post (some sid) (.json b) g) = (st, .noSessionError) := by
  simp [mcpStep, activeFor, strTruthy, hsid, hunk]

theorem unknown_session_post_rejected_witness :
    ("sess-unknown" : String) ≠ ""
    ∧ (RouterState.mk (fun _ => none) (fun _ => none) 0).streamable "sess-unknown" = none
    ∧ mcpStep (RouterState.mk (fun _ => none) (fun _ => none) 0)
        (.post (some "sess-unknown") (.json true) "g1")
        = (RouterState.mk (fun _ => none) (fun _ => none) 0, .noSessionError) :=
  ⟨by decide, rfl,
    unknown_session_post_rejected (RouterState.mk (fun _ => none) (fun _ => none) 0)
      "sess-unknown" "g1" true (by decide) rfl⟩

/-- C2, as frozen, is false: a POST whose header carries a never-issued
identifier but whose raw body is not valid JSON is answered with the
JSON-RPC `-32700` parse error, not the `-32000` "no valid session ID"
error, so the response does depend on the body's content. -/
theorem unknown_session_post_rejected_counterexample :
    mcpStep (RouterState.mk (fun _ => none) (fun _ => none) 0)
        (.post (some "sess-unknown") .malformed "g1")
      = (RouterState.mk (fun _ => none) (fun _ => none) 0, .parseError)
    ∧ McpOutcome.parseError ≠ McpOutcome.noSessionError :=
  ⟨rfl, by decide⟩

/-- The metadata argument passes the parse gate: it is absent, empty
(falsy, so never parsed) or valid JSON. -/
def metadataOk (m : Option String) : Bool :=
  match m with
  | none => true
  | some s => s == "" || isValidJson s

/-- The value `parsedMetadata` holds after a successful pass through the
metadata gate. -/
def parsedMeta (m : Option String) : Option String :=
  match m with
  | none => none
  | some s => if s == "" then none else some s

theorem stripeProducts_eq_switch (ad : ProductsAdapter) (a : ProductsArgs)
    (h : metadataOk a.metadata = true) :
    stripeProducts ad a = productsSwitch ad a (parsedMeta a.metadata) := by
  cases hm : a.metadata with
  | none => simp [stripeProducts, parsedMeta, hm]
  | some s =>
    rw [hm] at h
    cases hs : (s == "") with
    | true => simp [stripeProducts, parsedMeta, hm, hs]
    | false =>
      have hv : isValidJson s = true := by
        simp only [metadataOk, hs, Bool.false_or] at h
        exact h
      simp [stripeProducts, parsedMeta, hm, hs, hv]

theorem stripePrices_eq_switch (fmt : Int → String) (ad : PricesAdapter) (a : PricesArgs)
    (h : metadataOk a.metadata = true) :
    stripePrices fmt ad a = pricesSwitch fmt ad a (parsedMeta a.metadata) := by
  cases hm : a.metadata with
  | none => simp [stripePrices, parsedMeta, hm]
  | some s =>
    rw [hm] at h
    cases hs : (s == "") with
    | true => simp [stripePrices, parsedMeta, hm, hs]
    | false =>
      have hv : isValidJson s = true := by
        simp only [metadataOk, hs, Bool.false_or] at h
        exact h
      simp [stripePrices, parsedMeta, hm, hs, hv]

/-- Deterministic stub adapters used to instantiate the claims on concrete
inputs. -/
def stubProductsAdapter : ProductsAdapter :=
  ⟨fun _ => .error "stub", fun _ => .ok [],
   fun _ => .ok { id := "prod_123", name := "Gold" }, fun _ _ => .error "stub"⟩

def stubPricesAdapter : PricesAdapter :=
  ⟨fun _ => .error "stub", fun _ => .ok [], fun _ => .error "stub", fun _ _ => .error "stub"⟩

def stubWebhooksAdapter : WebhooksAdapter :=
  ⟨fun _ => .error "stub", fun _ => .ok [], fun _ => .error "stub",
   fun _ _ => .error "stub", fun _ => .error "stub"⟩

def stubPortalAdapter : PortalAdapter :=
  ⟨fun _ => .error "stub", fun _ => .ok [], fun _ => .error "stub", fun _ _ => .error "stub"⟩

def stubQueryAdapter : QueryAdapter :=
  ⟨fun _ => .ok { data := ["ev_1"] }, fun _ => .ok { data := ["ch_1"] },
   fun _ => .ok { data := ["pi_1"] }, fun _ => .ok { data := ["cus_1"] },
   fun _ => .ok { data := ["sub_1"] }, fun _ => .ok { data := ["in_1"] },
   fun _ => .ok { data := ["prod_1"] }, fun _ => .ok { data := ["price_1"] }⟩

def stubFmt : Int → String := fun _ => "0"

/-- C3 (amended): for every tool invocation that omits an argument required
by the selected action — provided the metadata argument of the product and
price tools, if supplied and nonempty, is valid JSON (otherwise the
metadata parse error is returned first) — the handler returns the
`{success:false, error:...}` payload whose message names the required
field, and performs no Stripe adapter call. -/
theorem required_argument_rejections
    (pad : ProductsAdapter) (prad : PricesAdapter) (wad : WebhooksAdapter)
    (poad : PortalAdapter) (fmt : Int → String)
    (pa : ProductsArgs) (pra : PricesArgs) (wa : WebhooksArgs) (poa : PortalArgs)
    (hpm : metadataOk pa.metadata = true) (hprm : metadataOk pra.metadata = true) :
    (pa.action = .retrieve → pa.product_id = none →
      stripeProducts pad pa = (.failure "Product ID is required for retrieve action", []))
    ∧ (pa.action = .update → pa.product_id = none →
      stripeProducts pad pa = (.failure "Product ID is required for update action", []))
    ∧ (pa.action = .archive → pa.product_id = none →
      stripeProducts pad pa = (.failure "Product ID is required for archive action", []))
    ∧ (pa.action = .create → pa.name = none →
      stripeProducts pad pa = (.failure "Product name is required for create action", []))
    ∧ (pra.action = .retrieve → pra.price_id = none →
      stripePrices fmt prad pra = (.failure "Price ID is required for retrieve action", []))
    ∧ (pra.action = .update → pra.price_id = none →
      stripePrices fmt prad pra = (.failure "Price ID is required for update action", []))
    ∧ (pra.action = .archive → pra.price_id = none →
      stripePrices fmt prad pra = (.failure "Price ID is required for archive action", []))
    ∧ (wa.action = .retrieve → wa.webhook_id = none →
      stripeWebhooks wad wa = (.failure "Webhook ID is required for retrieve action", []))
    ∧ (wa.action = .update → wa.webhook_id = none →
      stripeWebhooks wad wa = (.failure "Webhook ID is required for update action", []))
    ∧ (wa.action = .delete → wa.webhook_id = none →
      stripeWebhooks wad wa = (.failure "Webhook ID is required for delete action", []))
    ∧ (poa.action = .retrieve → poa.configuration_id = none →
      stripePortalConfig poad poa = (.failure "Configuration ID is required for retrieve action", []))
    ∧ (poa.action = .update → poa.configuration_id = none →
      stripePortalConfig poad poa = (.failure "Configuration ID is required for update action", [])) := by
  refine ⟨?_, ?_, ?_, ?_, ?_, ?_, ?_, ?_, ?_, ?_, ?_, ?_⟩ <;> intro h1 h2
  · rw [stripeProducts_eq_switch _ _ hpm]; simp [productsSwitch, h1, h2, strTruthy]
  · rw [stripeProducts_eq_switch _ _ hpm]; simp [productsSwitch, h1, h2, strTruthy]
  · rw [stripeProducts_eq_switch _ _ hpm]; simp [productsSwitch, h1, h2, strTruthy]
  · rw [stripeProducts_eq_switch _ _ hpm]; simp [productsSwitch, h1, h2, strTruthy]
  · rw [stripePrices_eq_switch _ _ _ hprm]; simp [pricesSwitch, h1, h2, strTruthy]
  · rw [stripePrices_eq_switch _ _ _ hprm]; simp [pricesSwitch, h1, h2, strTruthy]
  · rw [stripePrices_eq_switch _ _ _ hprm]; simp [pricesSwitch, h1, h2, strTruthy]
  · simp [stripeWebhooks, h1, h2, strTruthy]
  · simp [stripeWebhooks, h1, h2, strTruthy]
  · simp [stripeWebhooks, h1, h2, strTruthy]
  · simp [stripePortalConfig, h1, h2, strTruthy]
  · simp [stripePortalConfig, h1, h2, strTruthy]

theorem required_argument_rejections_witness :
    metadataOk (none : Option String) = true
    ∧ stripeProducts stubProductsAdapter { action := .retrieve }
        = (.failure "Product ID is required for retrieve action", [])
    ∧ stripePrices stubFmt stubPricesAdapter { action := .update }
        = (.failure "Price ID is required for update action", [])
    ∧ stripeWebhooks stubWebhooksAdapter { action := .delete }
        = (.failure "Webhook ID is required for delete action", [])
    ∧ stripePortalConfig stubPortalAdapter { action := .update }
        = (.failure "Configuration ID is required for update action", []) := by
  have h := required_argument_rejections stubProductsAdapter stubPricesAdapter
    stubWebhooksAdapter stubPortalAdapter stubFmt
    { action := .retrieve } { action := .update } { action := .delete } { action := .update }
    (by decide) (by decide)
  exact ⟨by decide, h.1 rfl rfl, h.2.2.2.2.2.1 rfl rfl, h.2.2.2.2.2.2.2.2.2.1 rfl rfl,
    h.2.2.2.2.2.2.2.2.2.2.2 rfl rfl⟩

/-- C3, as frozen, is false: an invocation that omits the required
`product_id` but also supplies a malformed metadata string gets the
metadata parse error, whose message does not name the required field. -/
theorem required_argument_rejections_counterexample :
    stripeProducts stubProductsAdapter { action := .retrieve, metadata := some "\x7b" }
      = (.failure "Invalid metadata JSON format", [])
    ∧ ("Invalid metadata JSON format" : String)
        ≠ "Product ID is required for retrieve action" :=
  ⟨rfl, by decide⟩

/-- C4 (amended): for every `stripe_products` or `stripe_prices`
invocation whose metadata argument is a nonempty string that is not valid
JSON, the handler returns `{success:false, error:'Invalid metadata JSON
format'}` and performs no Stripe adapter call, whatever the action. -/
theorem invalid_metadata_rejected
    (pad : ProductsAdapter) (prad : PricesAdapter) (fmt : Int → String)
    (pa : ProductsArgs) (pra : PricesArgs) (s : String)
    (hne : s ≠ "") (hv : isValidJson s = false) :
    (pa.metadata = some s →
      stripeProducts pad pa = (.failure "Invalid metadata JSON format", []))
    ∧ (pra.metadata = some s →
      stripePrices fmt prad pra = (.failure "Invalid metadata JSON format", [])) := by
  have hb : (s == "") = false := by simpa using hne
  constructor
  · intro hm; simp [stripeProducts, hm, hb, hv]
  · intro hm; simp [stripePrices, hm, hb, hv]

theorem invalid_metadata_rejected_witness :
    ("\x7b" : String) ≠ ""
    ∧ isValidJson "\x7b" = false
    ∧ stripeProducts stubProductsAdapter { action := .archive, metadata := some "\x7b" }
        = (.failure "Invalid metadata JSON format", [])
    ∧ stripePrices stubFmt stubPricesAdapter { action := .list, metadata := some "\x7b" }
        = (.failure "Invalid metadata JSON format", []) := by
  have h := invalid_metadata_rejected stubProductsAdapter stubPricesAdapter stubFmt
    { action := .archive, metadata := some "\x7b" }
    { action := .list, metadata := some "\x7b" } "\x7b" (by decide) (by decide)
  exact ⟨by decide, by decide, h.1 rfl, h.2 rfl⟩

/-- C4, as frozen, is false: the empty string is not valid JSON
(`JSON.parse("")` throws), yet it is falsy, so `if (metadata)` skips the
parse entirely and the handler proceeds — here `list` succeeds and calls
the adapter. -/
theorem invalid_metadata_rejected_counterexample :
    isValidJson "" = false
    ∧ stripeProducts stubProductsAdapter { action := .list, metadata := some "" }
        = (.products [] "Found 0 product(s)", [.productsList 100])
    ∧ (ToolPayload.products [] "Found 0 product(s)"
        ≠ .failure "Invalid metadata JSON format") :=
  ⟨by decide, rfl, by decide⟩

/-- C5 (amended): a `stripe_webhooks` create invocation whose `url` is
supplied and nonempty but does not start with `https://`, with
`enabled_events` supplied, is rejected with the https error before the
`webhookEndpoints.create` call. -/
theorem webhook_insecure_url_rejected (wad : WebhooksAdapter) (a : WebhooksArgs)
    (u : String) (evs : List String)
    (hact : a.action = .create) (hu : a.url = some u) (hne : u ≠ "")
    (hev : a.enabled_events = some evs) (hhttps : strStartsWith u "https://" = false) :
    stripeWebhooks wad a = (.failure "Webhook URL must start with https://", []) := by
  have hb : (u != "") = true := by simpa using hne
  simp [stripeWebhooks, hact, hu, hev, strTruthy, hb, hhttps]

theorem webhook_insecure_url_rejected_witness :
    ("http://example.com" : String) ≠ ""
    ∧ strStartsWith "http://example.com" "https://" = false
    ∧ stripeWebhooks stubWebhooksAdapter
        { action := .create, url := some "http://example.com",
          enabled_events := some ["payment_intent.succeeded"] }
        = (.failure "Webhook URL must start with https://", []) :=
  ⟨by decide, by decide,
    webhook_insecure_url_rejected stubWebhooksAdapter
      { action := .create, url := some "http://example.com",
        enabled_events := some ["payment_intent.succeeded"] }
      "http://example.com" ["payment_intent.succeeded"]
      rfl rfl (by decide) rfl (by decide)⟩

/-- C5, as frozen, is false: the empty string is a supplied url that does
not start with `https://`, yet it is falsy, so the required-arguments
check fires first and a different error message is returned. -/
theorem webhook_insecure_url_rejected_counterexample :
    strStartsWith "" "https://" = false
    ∧ stripeWebhooks stubWebhooksAdapter
        { action := .create, url := some "",
          enabled_events := some ["payment_intent.succeeded"] }
        = (.failure "URL and enabled_events are required for create action", [])
    ∧ (ToolPayload.failure "URL and enabled_events are required for create action"
        ≠ .failure "Webhook URL must start with https://") :=
  ⟨by decide, rfl, by decide⟩

/-- C6: when the adapter's `products.retrieve` returns a fixed product for
`prod_123`, the retrieve action returns the
`{success:true, product, message:"Retrieved product: <name>"}` payload
built from that product. -/
theorem product_retrieve_success (ad : ProductsAdapter) (p : Product)
    (h : ad.retrieve "prod_123" = .ok p) :
    stripeProducts ad { action := .retrieve, product_id := some "prod_123" }
      = (.product p ("Retrieved product: " ++ p.name), [.productsRetrieve "prod_123"]) := by
  simp [stripeProducts, productsSwitch, strTruthy, h]

theorem product_retrieve_success_witness :
    stubProductsAdapter.retrieve "prod_123"
      = .ok { id := "prod_123", name := "Gold", active := true }
    ∧ stripeProducts stubProductsAdapter { action := .retrieve, product_id := some "prod_123" }
        = (.product { id := "prod_123", name := "Gold", active := true }
            "Retrieved product: Gold", [.productsRetrieve "prod_123"]) :=
  ⟨rfl, product_retrieve_success stubProductsAdapter
    { id := "prod_123", name := "Gold", active := true } rfl⟩

/-- C7: the `stripe_query` handler is a pure function of the adapter and
the argument bag, so two invocations with identical resource, filters,
limit and expand against the same deterministic adapter return identical
payloads (and identical call lists). -/
theorem query_deterministic (ad : QueryAdapter) (a b : QueryArgs) (h : a = b) :
    stripeQuery ad a = stripeQuery ad b := by
  rw [h]

theorem query_deterministic_witness :
    stripeQuery stubQueryAdapter { resource := .charges, limit := some 5 }
      = stripeQuery stubQueryAdapter { resource := .charges, limit := some 5 } :=
  query_deterministic stubQueryAdapter
    { resource := .charges, limit := some 5 } { resource := .charges, limit := some 5 } rfl

/-- C8: a request to `/mcp` whose method is none of OPTIONS, POST, GET and
DELETE falls through every branch of the `/mcp` handler, which has no
final else: no response at all is written — in particular not the
not-found error, which unrecognized paths do receive with the same
method. -/
theorem mcp_unsupported_method_unanswered (st : RouterState) (m p : String)
    (hs : Option String) (b : Body) (g : String) (qs : Option String)
    (h1 : m ≠ "OPTIONS") (h2 : m ≠ "POST") (h3 : m ≠ "GET") (h4 : m ≠ "DELETE") :
    handleHttpRequest st m "/mcp" hs b g qs = (st, none)
    ∧ (p ≠ "/mcp" → p ≠ "/health" → p ≠ "/" →
        handleHttpRequest st m p hs b g qs = (st, some .notFound)) := by
  constructor
  · simp [handleHttpRequest, h1, h2, h3, h4]
  · intro hp1 hp2 hp3
    simp [handleHttpRequest, h1, h2, h3, h4, hp1, hp2, hp3]

theorem mcp_unsupported_method_unanswered_witness :
    ("PUT" : String) ≠ "OPTIONS"
    ∧ handleHttpRequest lifecycleDemoState "PUT" "/mcp" none (.json true) "g1" none
        = (lifecycleDemoState, none)
    ∧ handleHttpRequest lifecycleDemoState "PUT" "/unknown" none (.json true) "g1" none
        = (lifecycleDemoState, some .notFound) := by
  have h := mcp_unsupported_method_unanswered lifecycleDemoState "PUT" "/unknown"
    none (.json true) "g1" none (by decide) (by decide) (by decide) (by decide)
  exact ⟨by decide, h.1, h.2 (by decide) (by decide) (by decide)⟩

/-- C9 (amended): a `stripe_prices` create invocation with a supplied
`product_id` and `unit_amount` equal to `0` — provided the metadata
argument, if supplied and nonempty, is valid JSON — returns the
'Product ID and unit_amount are required for create action' error, because
`!unit_amount` treats the number `0` as missing; and in every case (bad
metadata included) such an invocation performs no Stripe call, so a
zero-amount price can never be created through this tool. -/
theorem price_zero_amount_rejected (fmt : Int → String) (prad : PricesAdapter)
    (a : PricesArgs) (pid : String)
    (hact : a.action = .create) (_hpid : a.product_id = some pid)
    (hua : a.unit_amount = some 0) (hm : metadataOk a.metadata = true) :
    stripePrices fmt prad a
      = (.failure "Product ID and unit_amount are required for create action", [])
    ∧ (∀ a' : PricesArgs, a'.action = .create → a'.unit_amount = some 0 →
        (stripePrices fmt prad a').2 = []) := by
  constructor
  · rw [stripePrices_eq_switch _ _ _ hm]
    simp [pricesSwitch, hact, hua, numTruthy]
  · intro a' h1 h2
    cases hm' : a'.metadata with
    | none =>
      rw [stripePrices_eq_switch _ _ _ (by simp [metadataOk, hm'])]
      simp [pricesSwitch, h1, h2, numTruthy]
    | some s =>
      cases hs : (s == "") with
      | true =>
        rw [stripePrices_eq_switch _ _ _ (by simp [metadataOk, hm', hs])]
        simp [pricesSwitch, h1, h2, numTruthy]
      | false =>
        cases hv : isValidJson s with
        | true =>
          rw [stripePrices_eq_switch _ _ _ (by simp [metadataOk, hm', hs, hv])]
          simp [pricesSwitch, h1, h2, numTruthy]
        | false =>
          simp [stripePrices, hm', hs, hv]

theorem price_zero_amount_rejected_witness :
    metadataOk (none : Option String) = true
    ∧ stripePrices stubFmt stubPricesAdapter
        { action := .create, product_id := some "prod_1", unit_amount := some 0 }
        = (.failure "Product ID and unit_amount are required for create action", []) := by
  have h := price_zero_amount_rejected stubFmt stubPricesAdapter
    { action := .create, product_id := some "prod_1", unit_amount := some 0 }
    "prod_1" rfl rfl rfl (by decide)
  exact ⟨by decide, h.1⟩

/-- C9, as frozen, is false as a statement about every such invocation:
with a malformed metadata string also supplied, the metadata parse error
is returned instead of the required-arguments error (though still with no
Stripe call). -/
theorem price_zero_amount_rejected_counterexample :
    stripePrices stubFmt stubPricesAdapter
        { action := .create, product_id := some "prod_1", unit_amount := some 0,
          metadata := some "\x7b" }
      = (.failure "Invalid metadata JSON format", [])
    ∧ (ToolPayload.failure "Invalid metadata JSON format"
        ≠ .failure "Product ID and unit_amount are required for create action") :=
  ⟨rfl, by decide⟩

/-- C10: the `stripe_query` handler always performs exactly one list call
whose parameters are `queryParams`; the forwarded limit is
`min(max(limit, 1), 100)` for a supplied nonzero limit, and `10` when the
limit is absent or `0` (which `limit || 10` replaces by the default before
clamping). -/
theorem query_limit_clamped (ad : QueryAdapter) (a : QueryArgs) :
    (stripeQuery ad a).2 = [.queryList (resourceName a.resource) (queryParams a)]
    ∧ (∀ n : Int, a.limit = some n → n ≠ 0 →
        (queryParams a).limit = min (max n 1) 100)
    ∧ ((a.limit = none ∨ a.limit = some 0) → (queryParams a).limit = 10) := by
  refine ⟨?_, ?_, ?_⟩
  · rcases h : queryDispatch ad a.resource (queryParams a) with e | r <;>
      simp [stripeQuery, h]
  · intro n hn hnz
    have hb : (n == 0) = false := by simpa using hnz
    simp [queryParams, hn, hb]
  · rintro (h | h) <;> simp [queryParams, h]

theorem query_limit_clamped_witness :
    (stripeQuery stubQueryAdapter { resource := .events, limit := some 250 }).2
      = [.queryList "events" (queryParams { resource := .events, limit := some 250 })]
    ∧ (queryParams { resource := .events, limit := some 250 }).limit = 100
    ∧ (queryParams { resource := .events, limit := some (-5) }).limit = 1
    ∧ (queryParams { resource := .events, limit := some 0 }).limit = 10
    ∧ (queryParams { resource := .events }).limit = 10 := by
  have h1 := query_limit_clamped stubQueryAdapter { resource := .events, limit := some 250 }
  have h2 := query_limit_clamped stubQueryAdapter { resource := .events, limit := some (-5) }
  have h3 := query_limit_clamped stubQueryAdapter { resource := .events, limit := some 0 }
  have h4 := query_limit_clamped stubQueryAdapter { resource := .events }
  refine ⟨h1.1, ?_, ?_, h3.2.2 (Or.inr rfl), h4.2.2 (Or.inl rfl)⟩
  · rw [h1.2.1 250 rfl (by decide)]; decide
  · rw [h2.2.1 (-5) rfl (by decide)]; decide
